import Mathlib

/-!
Shallow embedding of `plugin/api/embedding.go` from mikejennings/lazygpt.

The file defines the data model of the embedding plugin bridge (requests,
responses, Go-style error values, contexts), the Server Adapter
(`EmbeddingGRPCServer.Embedding`), the Client Adapter
(`EmbeddingGRPCClient.Embedding`) and the Plugin Registration Facade
(`EmbeddingPlugin.Server` / `.Client` / `.GRPCServer`), then proves the
spec's claims about them.

Conventions of the embedding:
- A Go slice `[]float32` is `Option (List Float32)`; `none` is the nil slice,
  `some l` a non-nil slice with elements `l`.  The code never computes with
  float values, only passes them through, so a 32-bit float is represented
  opaquely by its bit pattern.
- A Go `error` result is `Option GoError`; `none` is the nil error.
  `fmt.Errorf("tag: %w", err)` is `GoError.wrap "tag" err`, which keeps the
  wrapped error reachable by unwrapping (as `%w` does).
- A Go pointer `*EmbeddingResponse` is `Option EmbeddingResponse`; `none` is
  the nil pointer.
- Functions that are code of this repository but outside the embedded file
  (`InitLogging`, `ErrNotGRPC`, the generated gRPC plumbing) are modelled
  from the spec; each carries a doc comment saying so.
-/

/-- A 32-bit floating-point value, represented opaquely by its bit pattern.
The embedding code only passes float values through and never inspects or
computes with them, so no floating-point arithmetic is modelled. -/
structure Float32 where
  bits : Nat
deriving DecidableEq, Repr

/-- A Go slice: `none` is the nil slice, `some l` a non-nil slice. -/
abbrev GoSlice (α : Type) := Option (List α)

/-- A Go error value.  `base s` is a leaf error with message `s`;
`wrap tag e` is `fmt.Errorf(tag + ": %w", e)`: an error whose message is
prefixed by `tag` and which unwraps to `e`. -/
inductive GoError where
  | base : String → GoError
  | wrap : String → GoError → GoError
deriving DecidableEq, Repr

/-- `errors.Unwrap`: a wrapped error exposes its cause, a leaf does not. -/
def GoError.unwrap : GoError → Option GoError
  | .base _ => none
  | .wrap _ e => some e

/-- The innermost (root) cause of an error, after all unwrapping. -/
def GoError.rootCause : GoError → GoError
  | .base s => .base s
  | .wrap _ e => e.rootCause

/-- All errors reachable from `e` by zero or more unwraps, outermost first. -/
def GoError.causes : GoError → List GoError
  | .base s => [.base s]
  | .wrap t e => .wrap t e :: e.causes

/-- Whether the outermost layer of the error carries the given message tag. -/
def GoError.hasTag : GoError → String → Bool
  | .base _, _ => false
  | .wrap t _, tag => t == tag

/-- The rendered error message, as `fmt.Errorf` with `": %w"` builds it. -/
def GoError.message : GoError → String
  | .base s => s
  | .wrap t e => t ++ ": " ++ e.message

/-- A `context.Context`: cancellation and call-scoped metadata.  Only the
logging/correlation scopes attached by `InitLogging` are observable to the
code under verification, so the model carries exactly those. -/
structure Context where
  scopes : List String
deriving DecidableEq, Repr

/-- Modelled from the spec: `InitLogging` (defined elsewhere in the
repository) augments the context with a fixed logging/correlation scope
identifying the operation; the augmented context is distinct from the
original and records the new scope. -/
def InitLogging (ctx : Context) (scope : String) : Context :=
  { ctx with scopes := scope :: ctx.scopes }

/-- The wire request: one field, `input`. -/
structure EmbeddingRequest where
  Input : String
deriving DecidableEq, Repr

/-- The wire response: one field, `embedding` (a Go `[]float32`). -/
structure EmbeddingResponse where
  Embedding : GoSlice Float32
deriving DecidableEq, Repr

/-- The `Embedding` capability interface:
`Embedding(ctx, input) ([]float32, error)`.  An implementation is any
function of this shape; the pair is the Go multi-value return. -/
abbrev EmbeddingImpl := Context → String → GoSlice Float32 × Option GoError

/-- `EmbeddingGRPCServer`: the Server Adapter, holding the bound
implementation `Impl`. -/
structure EmbeddingGRPCServer where
  Impl : EmbeddingImpl

/-- `NewEmbeddingGRPCServer` returns a new `EmbeddingGRPCServer`. -/
def NewEmbeddingGRPCServer (impl : EmbeddingImpl) : EmbeddingGRPCServer :=
  { Impl := impl }

/-- The Server Adapter's handler, translated line by line from the source:
augment the context with the `"embedding"` logging scope, delegate to the
bound implementation, and either wrap the failure as
`embedding failed: %w` with a nil response, or wrap the vector in a
response with a nil error. -/
def EmbeddingGRPCServer.Embedding (s : EmbeddingGRPCServer) (ctx : Context)
    (req : EmbeddingRequest) : Option EmbeddingResponse × Option GoError :=
  match s.Impl (InitLogging ctx "embedding") req.Input with
  | (_, some err) => (none, some (GoError.wrap "embedding failed" err))
  | (embedding, none) => (some { Embedding := embedding }, none)

/-- Modelled from the spec: the generated gRPC client handle
(`EmbeddingClient`, produced by the protobuf compiler, not part of the
embedded file) is a transport substrate carrying the typed request to the
peer and returning its typed response or the transport's error. -/
abbrev EmbeddingClient :=
  Context → EmbeddingRequest → Option EmbeddingResponse × Option GoError

/-- Dereference of the response pointer performed by `resp.Embedding` on the
client's success path.  In Go, dereferencing a nil pointer would panic; the
gRPC contract never yields a nil response together with a nil error, so the
default value here is unreachable in the composed system. -/
def derefResponse (p : Option EmbeddingResponse) : EmbeddingResponse :=
  p.getD { Embedding := none }

/-- `EmbeddingGRPCClient`: the Client Adapter, holding the transport handle
`Client`. -/
structure EmbeddingGRPCClient where
  Client : EmbeddingClient

/-- `NewEmbeddingGRPCClient` returns a new `EmbeddingGRPCClient`. -/
def NewEmbeddingGRPCClient (client : EmbeddingClient) : EmbeddingGRPCClient :=
  { Client := client }

/-- The Client Adapter's method, translated from the source: build the
request from the input, issue the RPC, wrap any transport error as
`embedding failed: %w` with a nil embedding, otherwise return the
response's embedding field with a nil error. -/
def EmbeddingGRPCClient.Embedding (c : EmbeddingGRPCClient) (ctx : Context)
    (input : String) : GoSlice Float32 × Option GoError :=
  match c.Client ctx { Input := input } with
  | (_, some err) => (none, some (GoError.wrap "embedding failed" err))
  | (resp, none) => ((derefResponse resp).Embedding, none)

/-- Modelled from the spec: the transport substrate is an external
collaborator carrying typed request/response messages; composing the Client
Adapter over a Server Adapter delivers the request to the server's handler
and its (response, error) pair back unchanged. -/
def idealTransport (s : EmbeddingGRPCServer) : EmbeddingClient :=
  fun ctx req => s.Embedding ctx req

/-- The composed bridge: the Client Adapter talking, over the ideal
transport, to a Server Adapter wrapping `impl`. -/
def bridgeEmbedding (impl : EmbeddingImpl) : EmbeddingImpl :=
  fun ctx input =>
    (NewEmbeddingGRPCClient
        (idealTransport (NewEmbeddingGRPCServer impl))).Embedding ctx input

/-- Modelled from the spec: `ErrNotGRPC` (defined elsewhere in the
repository) is the fixed unsupported-transport error returned by the
non-RPC construction paths. -/
def ErrNotGRPC : GoError := GoError.base "only gRPC transport is supported"

/-- The hosting framework's mux broker for the legacy `net/rpc` paths;
nothing in the embedded code inspects it. -/
structure MuxBroker where
  mk ::

/-- A legacy `net/rpc` client handle; nothing in the embedded code
inspects it. -/
structure RpcClient where
  mk ::

/-- The hosting framework's gRPC broker; nothing in the embedded code
inspects it. -/
structure GRPCBroker where
  mk ::

/-- `EmbeddingPlugin`: the Plugin Registration Facade, holding the bound
implementation in its `Embedding` field. -/
structure EmbeddingPlugin where
  Embedding : EmbeddingImpl

/-- `NewEmbeddingPlugin` returns a new `EmbeddingPlugin`. -/
def NewEmbeddingPlugin (embedding : EmbeddingImpl) : EmbeddingPlugin :=
  { Embedding := embedding }

/-- `Server` always returns an error: only gRPC is supported.  The
`interface{}` result is `Option Unit` (`none` = Go's nil). -/
def EmbeddingPlugin.Server (_p : EmbeddingPlugin) (_b : MuxBroker) :
    Option Unit × Option GoError :=
  (none, some ErrNotGRPC)

/-- `Client` always returns an error: only gRPC is supported. -/
def EmbeddingPlugin.Client (_p : EmbeddingPlugin) (_b : MuxBroker)
    (_c : RpcClient) : Option Unit × Option GoError :=
  (none, some ErrNotGRPC)

/-- A gRPC server, modelled as the list of named handlers registered on it. -/
structure GrpcServer where
  handlers :
    List (String × (Context → EmbeddingRequest → Option EmbeddingResponse × Option GoError))

/-- Modelled from the spec: `RegisterEmbeddingServer` (generated gRPC
plumbing) registers the served capability's handler on the server under the
capability's name. -/
def RegisterEmbeddingServer (srv : GrpcServer) (s : EmbeddingGRPCServer) :
    GrpcServer :=
  { srv with
      handlers := ("Embedding", fun ctx req => s.Embedding ctx req) :: srv.handlers }

/-- `GRPCServer` registers the embedding plugin with the gRPC server and
returns nil.  The mutation of `srv` is modelled by returning the updated
server alongside the Go `error` result. -/
def EmbeddingPlugin.GRPCServer (p : EmbeddingPlugin) (_b : GRPCBroker)
    (srv : GrpcServer) : GrpcServer × Option GoError :=
  (RegisterEmbeddingServer srv (NewEmbeddingGRPCServer p.Embedding), none)

/-- The error-free core of the server handler, applied to the bound
implementation's result: wrap a failure, or wrap the vector in a response. -/
def serverHandleCore :
    GoSlice Float32 × Option GoError → Option EmbeddingResponse × Option GoError
  | (_, some err) => (none, some (GoError.wrap "embedding failed" err))
  | (v, none) => (some { Embedding := v }, none)

/-- Exactly one of a non-nil result and a non-nil error. -/
def exactlyOne {α β : Type} (r : Option α) (e : Option β) : Prop :=
  r.isSome ≠ e.isSome

/-- An RPC handle is well-formed when every successful call returns a
non-nil response whose embedding field is a non-nil slice (what a Server
Adapter over a contract-abiding implementation produces). -/
def WellFormedRPC (rpc : EmbeddingClient) : Prop :=
  ∀ c r, (rpc c r).2 = none →
    ∃ resp, (rpc c r).1 = some resp ∧ resp.Embedding.isSome = true

/-! Concrete fixtures used by counterexamples and witnesses. -/

/-- The empty context. -/
def ctx0 : Context := { scopes := [] }

/-- An implementation whose vector depends on the context it is called
with: it returns a one-element vector recording how many logging scopes the
context carries. -/
def ctxSensitiveImpl : EmbeddingImpl :=
  fun c _ => (some [{ bits := c.scopes.length }], none)

/-- An implementation that always fails with a leaf error `boom`. -/
def errImpl : EmbeddingImpl :=
  fun _ _ => (none, some (GoError.base "boom"))

/-- An implementation that always fails with a leaf error `fail2`. -/
def errImpl2 : EmbeddingImpl :=
  fun _ _ => (none, some (GoError.base "fail2"))

/-- A Go-legal implementation returning a nil slice and a nil error. -/
def nilOnSuccessImpl : EmbeddingImpl := fun _ _ => (none, none)

/-- An implementation that always succeeds with a non-nil vector. -/
def goodImpl : EmbeddingImpl :=
  fun _ _ => (some [{ bits := 1 }], none)

/-- A transport whose successful response carries a nil embedding slice
(exactly what gRPC delivers for an absent repeated field). -/
def rpcNilEmbedding : EmbeddingClient :=
  fun _ _ => (some { Embedding := none }, none)

/-- A transport whose successful response carries a non-nil embedding. -/
def rpcGood : EmbeddingClient :=
  fun _ _ => (some { Embedding := some [] }, none)

/-- A transport that always fails with a leaf error `net down`. -/
def rpcErr : EmbeddingClient :=
  fun _ _ => (none, some (GoError.base "net down"))

/-! Helper lemmas shared by several claims. -/

/-- Wrapping strictly grows an error: a wrapped error is never equal to the
error it wraps. -/
theorem goError_wrap_ne : ∀ (e : GoError) (t : String), GoError.wrap t e ≠ e := by
  intro e
  induction e with
  | base s => intro t h; exact GoError.noConfusion h
  | wrap t' e' ih =>
    intro t h
    injection h with h1 h2
    exact ih t' h2

/-- Every error is among its own causes. -/
theorem goError_self_mem_causes : ∀ e : GoError, e ∈ e.causes := by
  intro e
  cases e with
  | base s => simp [GoError.causes]
  | wrap t e' => simp [GoError.causes]

/-- Evaluation of the Server Adapter: the handler is the core translation
applied to the implementation's result at the logging-augmented context. -/
theorem server_eval (impl : EmbeddingImpl) (ctx : Context)
    (req : EmbeddingRequest) :
    (NewEmbeddingGRPCServer impl).Embedding ctx req
      = serverHandleCore (impl (InitLogging ctx "embedding") req.Input) := by
  cases hi : impl (InitLogging ctx "embedding") req.Input with
  | mk v err =>
    cases err <;>
      simp [NewEmbeddingGRPCServer, EmbeddingGRPCServer.Embedding,
        serverHandleCore, hi]

/-- Evaluation of the composed bridge: on success the implementation's
vector passes through unchanged; on failure the implementation's error
comes back wrapped twice with the `embedding failed` tag. -/
theorem bridge_eval (impl : EmbeddingImpl) (ctx : Context) (s : String) :
    bridgeEmbedding impl ctx s
      = match impl (InitLogging ctx "embedding") s with
        | (v, none) => (v, none)
        | (_, some e) =>
            (none, some (GoError.wrap "embedding failed"
              (GoError.wrap "embedding failed" e))) := by
  cases hi : impl (InitLogging ctx "embedding") s with
  | mk v err =>
    cases err <;>
      simp [bridgeEmbedding, NewEmbeddingGRPCClient, EmbeddingGRPCClient.Embedding,
        idealTransport, NewEmbeddingGRPCServer, EmbeddingGRPCServer.Embedding,
        derefResponse, hi]

/-! Claim theorems. -/

/-- Claim C1, counterexample: the claim compares the bridge with
`I.Embedding(ctx, s)` at the caller's own context, but the Server Adapter
delegates with the logging-augmented context, so an implementation whose
vector depends on the context yields a different success vector through the
bridge than it does locally. -/
theorem C1_bridge_transparency_counterexample :
    (bridgeEmbedding ctxSensitiveImpl ctx0 "x").2 = none ∧
    (ctxSensitiveImpl ctx0 "x").2 = none ∧
    (bridgeEmbedding ctxSensitiveImpl ctx0 "x").1 ≠ (ctxSensitiveImpl ctx0 "x").1 := by
  refine ⟨rfl, rfl, ?_⟩
  decide

/-- Claim C1 (amended): bridge transparency holds relative to the context
the Server Adapter delegates with: for every implementation, context and
input, the bridge returns exactly the vector the implementation returns at
the logging-augmented context on success, and on failure both fail, the
bridge's error being the implementation's error wrapped (twice) with the
`embedding failed` tag. -/
theorem C1_bridge_transparency_amended (impl : EmbeddingImpl) (ctx : Context)
    (s : String) :
    bridgeEmbedding impl ctx s
      = match impl (InitLogging ctx "embedding") s with
        | (v, none) => (v, none)
        | (_, some e) =>
            (none, some (GoError.wrap "embedding failed"
              (GoError.wrap "embedding failed" e))) :=
  bridge_eval impl ctx s

/-- Claim C2, counterexample: the Client Adapter can return a nil embedding
together with a nil error — it happens exactly when the RPC succeeds with a
response whose embedding field is a nil slice — so "never both nil" fails
for the Client Adapter. -/
theorem C2_exactly_one_counterexample :
    (NewEmbeddingGRPCClient rpcNilEmbedding).Embedding ctx0 "b" = (none, none) ∧
    ¬ exactlyOne ((NewEmbeddingGRPCClient rpcNilEmbedding).Embedding ctx0 "b").1
        ((NewEmbeddingGRPCClient rpcNilEmbedding).Embedding ctx0 "b").2 := by
  refine ⟨rfl, fun h => h rfl⟩

/-- Claim C2 (amended): the Server Adapter returns exactly one of a non-nil
response and a non-nil error, unconditionally.  The Client Adapter never
returns both non-nil, unconditionally; and it returns exactly one of a
non-nil embedding and a non-nil error whenever the transport's successful
responses carry a non-nil embedding field (as a Server Adapter over a
contract-abiding implementation produces). -/
theorem C2_exactly_one_amended :
    (∀ (impl : EmbeddingImpl) (ctx : Context) (req : EmbeddingRequest),
        exactlyOne ((NewEmbeddingGRPCServer impl).Embedding ctx req).1
          ((NewEmbeddingGRPCServer impl).Embedding ctx req).2) ∧
    (∀ (rpc : EmbeddingClient) (ctx : Context) (input : String),
        ¬(((NewEmbeddingGRPCClient rpc).Embedding ctx input).1.isSome = true ∧
          ((NewEmbeddingGRPCClient rpc).Embedding ctx input).2.isSome = true)) ∧
    (∀ (rpc : EmbeddingClient) (ctx : Context) (input : String),
        WellFormedRPC rpc →
          exactlyOne ((NewEmbeddingGRPCClient rpc).Embedding ctx input).1
            ((NewEmbeddingGRPCClient rpc).Embedding ctx input).2) := by
  refine ⟨?_, ?_, ?_⟩
  · intro impl ctx req
    rw [server_eval]
    cases hi : impl (InitLogging ctx "embedding") req.Input with
    | mk v err => cases err <;> simp [serverHandleCore, exactlyOne]
  · intro rpc ctx input
    cases hr : rpc ctx { Input := input } with
    | mk resp err =>
      cases err <;>
        simp [NewEmbeddingGRPCClient, EmbeddingGRPCClient.Embedding, hr]
  · intro rpc ctx input hwf
    cases hr : rpc ctx { Input := input } with
    | mk resp err =>
      cases err with
      | none =>
        obtain ⟨r, hr1, hr2⟩ := hwf ctx { Input := input } (by rw [hr])
        rw [hr] at hr1
        simp only [NewEmbeddingGRPCClient, EmbeddingGRPCClient.Embedding, hr]
        simp only at hr1
        subst hr1
        simp [derefResponse, exactlyOne, hr2]
      | some e =>
        simp [NewEmbeddingGRPCClient, EmbeddingGRPCClient.Embedding, hr,
          exactlyOne]

/-- Claim C2 witness: the amended client-side guarantee at a concrete
well-formed transport and input. -/
theorem C2_exactly_one_witness :
    exactlyOne ((NewEmbeddingGRPCClient rpcGood).Embedding ctx0 "w").1
      ((NewEmbeddingGRPCClient rpcGood).Embedding ctx0 "w").2 :=
  C2_exactly_one_amended.2.2 rpcGood ctx0 "w"
    (fun _ _ _ => ⟨{ Embedding := some [] }, rfl, rfl⟩)

/-- Claim C3: whenever the bound implementation fails with error `e`, the
Server Adapter's handler returns a nil response and an error that wraps `e`
(`e` remains reachable by one unwrap) and whose outermost tag is
`embedding failed`. -/
theorem C3_server_error_path (impl : EmbeddingImpl) (ctx : Context)
    (req : EmbeddingRequest) (e : GoError)
    (h : (impl (InitLogging ctx "embedding") req.Input).2 = some e) :
    (NewEmbeddingGRPCServer impl).Embedding ctx req
      = (none, some (GoError.wrap "embedding failed" e)) ∧
    (GoError.wrap "embedding failed" e).unwrap = some e ∧
    (GoError.wrap "embedding failed" e).hasTag "embedding failed" = true := by
  refine ⟨?_, rfl, by simp [GoError.hasTag]⟩
  rw [server_eval]
  cases hi : impl (InitLogging ctx "embedding") req.Input with
  | mk v err =>
    rw [hi] at h
    simp only at h
    subst h
    simp [serverHandleCore]

/-- Claim C3 witness: the theorem at the always-failing implementation. -/
theorem C3_server_error_path_witness :
    (NewEmbeddingGRPCServer errImpl).Embedding ctx0 { Input := "in" }
      = (none, some (GoError.wrap "embedding failed" (GoError.base "boom"))) ∧
    (GoError.wrap "embedding failed" (GoError.base "boom")).unwrap
      = some (GoError.base "boom") ∧
    (GoError.wrap "embedding failed" (GoError.base "boom")).hasTag
      "embedding failed" = true :=
  C3_server_error_path errImpl ctx0 { Input := "in" } (GoError.base "boom") rfl

/-- Claim C4: whenever the RPC call through the transport handle fails with
error `t`, the Client Adapter returns a nil embedding and an error that
wraps `t`, with the same `embedding failed` tag the Server Adapter uses. -/
theorem C4_client_error_path (rpc : EmbeddingClient) (ctx : Context)
    (input : String) (t : GoError)
    (h : (rpc ctx { Input := input }).2 = some t) :
    (NewEmbeddingGRPCClient rpc).Embedding ctx input
      = (none, some (GoError.wrap "embedding failed" t)) ∧
    (GoError.wrap "embedding failed" t).unwrap = some t ∧
    (GoError.wrap "embedding failed" t).hasTag "embedding failed" = true := by
  refine ⟨?_, rfl, by simp [GoError.hasTag]⟩
  cases hr : rpc ctx { Input := input } with
  | mk resp err =>
    rw [hr] at h
    simp only at h
    subst h
    simp [NewEmbeddingGRPCClient, EmbeddingGRPCClient.Embedding, hr]

/-- Claim C4 witness: the theorem at the always-failing transport. -/
theorem C4_client_error_path_witness :
    (NewEmbeddingGRPCClient rpcErr).Embedding ctx0 "q"
      = (none, some (GoError.wrap "embedding failed" (GoError.base "net down"))) ∧
    (GoError.wrap "embedding failed" (GoError.base "net down")).unwrap
      = some (GoError.base "net down") ∧
    (GoError.wrap "embedding failed" (GoError.base "net down")).hasTag
      "embedding failed" = true :=
  C4_client_error_path rpcErr ctx0 "q" (GoError.base "net down") rfl

/-- Claim C5: when the bound implementation fails with `e`, the error the
composed Client Adapter returns surfaces, by unwrapping, a cause
attributable to `e`: `e` itself is among its causes and both share the
same root cause. -/
theorem C5_failure_round_trip (impl : EmbeddingImpl) (ctx : Context)
    (s : String) (e : GoError)
    (h : (impl (InitLogging ctx "embedding") s).2 = some e) :
    ∃ ce, (bridgeEmbedding impl ctx s).2 = some ce ∧
      e ∈ ce.causes ∧ ce.rootCause = e.rootCause := by
  refine ⟨GoError.wrap "embedding failed" (GoError.wrap "embedding failed" e),
    ?_, ?_, by simp [GoError.rootCause]⟩
  · rw [bridge_eval]
    cases hi : impl (InitLogging ctx "embedding") s with
    | mk v err =>
      rw [hi] at h
      simp only at h
      subst h
      rfl
  · simp only [GoError.causes, List.mem_cons]
    exact Or.inr (Or.inr (goError_self_mem_causes e))

/-- Claim C5 witness: the round trip at the always-failing implementation. -/
theorem C5_failure_round_trip_witness :
    ∃ ce, (bridgeEmbedding errImpl ctx0 "s").2 = some ce ∧
      GoError.base "boom" ∈ ce.causes ∧
      ce.rootCause = (GoError.base "boom").rootCause :=
  C5_failure_round_trip errImpl ctx0 "s" (GoError.base "boom") rfl

/-- Claim C6: both non-RPC construction paths of the Registration Facade
return a nil value and the fixed `ErrNotGRPC` error, and their results do
not depend on the plugin's bound implementation (so the implementation is
never invoked). -/
theorem C6_non_rpc_rejection :
    (∀ (p : EmbeddingPlugin) (b : MuxBroker),
        EmbeddingPlugin.Server p b = (none, some ErrNotGRPC)) ∧
    (∀ (p : EmbeddingPlugin) (b : MuxBroker) (c : RpcClient),
        EmbeddingPlugin.Client p b c = (none, some ErrNotGRPC)) ∧
    (∀ (p q : EmbeddingPlugin) (b b' : MuxBroker),
        EmbeddingPlugin.Server p b = EmbeddingPlugin.Server q b') ∧
    (∀ (p q : EmbeddingPlugin) (b b' : MuxBroker) (c c' : RpcClient),
        EmbeddingPlugin.Client p b c = EmbeddingPlugin.Client q b' c') :=
  ⟨fun _ _ => rfl, fun _ _ _ => rfl, fun _ _ _ _ => rfl,
    fun _ _ _ _ _ _ => rfl⟩

/-- Claim C7: on every call, the Server Adapter's handler equals the core
translation applied to the bound implementation evaluated at the
logging-augmented context — so the implementation is consulted only with
the augmented context — and that augmentation unconditionally attaches the
fixed `embedding` scope on top of the caller's context. -/
theorem C7_logging_scope_attachment (impl : EmbeddingImpl) (ctx : Context)
    (req : EmbeddingRequest) :
    (NewEmbeddingGRPCServer impl).Embedding ctx req
      = serverHandleCore (impl (InitLogging ctx "embedding") req.Input) ∧
    (InitLogging ctx "embedding").scopes = "embedding" :: ctx.scopes :=
  ⟨server_eval impl ctx req, rfl⟩

/-- Claim C8, counterexample: a Go-legal implementation may return a nil
slice with a nil error; the bridge then delivers exactly that to the host
caller, so the Client Adapter can return `(nil, nil)`. -/
theorem C8_non_nil_success_counterexample :
    bridgeEmbedding nilOnSuccessImpl ctx0 "a" = (none, none) := rfl

/-- Claim C8 (amended): if the bound implementation returns a non-nil
embedding whenever it succeeds, then the composed Client Adapter also
returns a non-nil embedding whenever it succeeds — in particular it never
returns `(nil, nil)`. -/
theorem C8_non_nil_success_amended (impl : EmbeddingImpl)
    (h : ∀ c s, (impl c s).2 = none → (impl c s).1.isSome = true) :
    ∀ (ctx : Context) (input : String),
      (bridgeEmbedding impl ctx input).2 = none →
        (bridgeEmbedding impl ctx input).1.isSome = true := by
  intro ctx input hnone
  rw [bridge_eval] at hnone ⊢
  cases hi : impl (InitLogging ctx "embedding") input with
  | mk v err =>
    cases err with
    | none =>
      have := h (InitLogging ctx "embedding") input
      rw [hi] at this
      simpa [hi] using this rfl
    | some e => rw [hi] at hnone; simp at hnone

/-- Claim C8 witness: the amended guarantee at an implementation that
always succeeds with a non-nil vector. -/
theorem C8_non_nil_success_witness :
    (bridgeEmbedding goodImpl ctx0 "hello").1.isSome = true :=
  C8_non_nil_success_amended goodImpl (fun _ _ _ => rfl) ctx0 "hello" rfl

/-- Claim C9: when the bound implementation fails with `e`, the error the
host caller receives from the bridge carries the `embedding failed` tag
twice: one unwrap yields the server-tagged error (which is not `e`
itself), and `e` is reached only by a second unwrap. -/
theorem C9_double_tagging (impl : EmbeddingImpl) (ctx : Context) (s : String)
    (e : GoError) (h : (impl (InitLogging ctx "embedding") s).2 = some e) :
    (bridgeEmbedding impl ctx s).2
      = some (GoError.wrap "embedding failed"
          (GoError.wrap "embedding failed" e)) ∧
    (GoError.wrap "embedding failed"
        (GoError.wrap "embedding failed" e)).unwrap
      = some (GoError.wrap "embedding failed" e) ∧
    GoError.wrap "embedding failed" e ≠ e ∧
    (GoError.wrap "embedding failed" e).unwrap = some e := by
  refine ⟨?_, rfl, goError_wrap_ne e "embedding failed", rfl⟩
  rw [bridge_eval]
  cases hi : impl (InitLogging ctx "embedding") s with
  | mk v err =>
    rw [hi] at h
    simp only at h
    subst h
    rfl

/-- Claim C9 witness: the double tagging at the always-failing
implementation `errImpl2`. -/
theorem C9_double_tagging_witness :
    (bridgeEmbedding errImpl2 ctx0 "t").2
      = some (GoError.wrap "embedding failed"
          (GoError.wrap "embedding failed" (GoError.base "fail2"))) ∧
    (GoError.wrap "embedding failed"
        (GoError.wrap "embedding failed" (GoError.base "fail2"))).unwrap
      = some (GoError.wrap "embedding failed" (GoError.base "fail2")) ∧
    GoError.wrap "embedding failed" (GoError.base "fail2")
      ≠ GoError.base "fail2" ∧
    (GoError.wrap "embedding failed" (GoError.base "fail2")).unwrap
      = some (GoError.base "fail2") :=
  C9_double_tagging errImpl2 ctx0 "t" (GoError.base "fail2") rfl

/-- Claim C10: for every broker and gRPC server handle, `GRPCServer`
returns a nil error and registers, under the capability name, the Server
Adapter constructed over the plugin's held implementation, on top of the
server's existing handlers. -/
theorem C10_grpc_server_registration (p : EmbeddingPlugin) (b : GRPCBroker)
    (srv : GrpcServer) :
    (EmbeddingPlugin.GRPCServer p b srv).2 = none ∧
    (EmbeddingPlugin.GRPCServer p b srv).1.handlers
      = ("Embedding",
          fun ctx req =>
            (NewEmbeddingGRPCServer p.Embedding).Embedding ctx req)
          :: srv.handlers :=
  ⟨rfl, rfl⟩
